import Mathlib

/-!
Verification development for the atomic-arbitrage detection pipeline.

This file shallowly embeds the detection-to-decision pipeline of the
repository: the profit model (`src/analyzer/ProfitCalculator.ts`), the
multi-stage opportunity validator (`OpportunityValidator`) and the
cross-venue aggregator (`PriceAggregator`).

Modelling conventions, fixed once here:

* `ethers.BigNumber` values (prices, amounts, wei quantities) are embedded
  as `Int`.  `BigNumber.div` truncates toward zero, which is `Int.tdiv`.
* JavaScript `number` values that the code obtains from exact integer
  sources (`.toNumber()` of a `BigNumber`, integer literals) and then
  divides or compares are embedded as exact rationals `ℚ`.  IEEE-754
  rounding is not modelled; every concrete comparison appearing in the
  claims is between values that are exactly representable, so the exact
  rational model and the double model decide them identically.
* `Math.round x` is `⌊x + 1/2⌋`.
* JavaScript `Date.now()` is passed to the embedded functions as an
  explicit integer parameter `now` (milliseconds); the source reads the
  ambient clock at exactly the places where the parameter is consumed.
* The human-readable reason and warning strings of the validator are
  embedded as the inductive types `Reason` and `Warning`, one constructor
  per distinct template string in the source; the dynamic parts of those
  strings (interpolated addresses, amounts) are dropped.
* `ethers.utils.isAddress` is external library code; it is modelled for
  all-lowercase hexadecimal addresses (`0x` + 40 lowercase hex digits),
  the only form the repository itself produces and the only form used in
  concrete instances below.  The mixed-case checksum branch of the
  library is not modelled.
-/

/-- Divisor semantics of `ethers.BigNumber.div`: truncation toward zero. -/
def bnDiv (a b : Int) : Int := Int.tdiv a b

/-- The constant `ethers.constants.WeiPerEther`, `10^18`. -/
def WeiPerEther : Int := 10 ^ 18

/-- JavaScript `Math.round`: round half toward positive infinity. -/
def jsRound (q : ℚ) : Int := ⌊q + 1 / 2⌋

/-- The zero address `ethers.constants.AddressZero`. -/
def AddressZero : String := "0x0000000000000000000000000000000000000000"

/-- The record `ArbitrageOpportunity` of `src/types/arbitrage.types.ts`.
The optional field `estimatedProfit?` is an `Option`. -/
structure ArbitrageOpportunity where
  id : String
  tokenIn : String
  tokenOut : String
  buyDex : String
  sellDex : String
  buyPrice : Int
  sellPrice : Int
  buyPoolAddress : String
  sellPoolAddress : String
  availableLiquidity : Int
  timestamp : Int
  blockNumber : Int
  estimatedProfit : Option Int
deriving DecidableEq, Repr

/-- The record `Price` of `src/types/dex.types.ts` (a venue quote). -/
structure Price where
  tokenA : String
  tokenB : String
  price : Int
  inversePrice : Int
  blockNumber : Int
  timestamp : Int
  source : String
  poolAddress : Option String
deriving DecidableEq, Repr

/-- The record `ProfitAnalysis` of `src/types/arbitrage.types.ts`; the
nested `priceImpact` object is flattened into two fields. -/
structure ProfitAnalysis where
  opportunity : ArbitrageOpportunity
  grossProfit : Int
  flashLoanFee : Int
  gasCost : Int
  dexFees : Int
  netProfit : Int
  profitPercentage : ℚ
  recommendedAmount : Int
  isExecutable : Bool
  priceImpactBuy : ℚ
  priceImpactSell : ℚ
deriving DecidableEq, Repr

namespace ProfitCalculator

/-- Configuration consumed by `ProfitCalculator`: the fields of
`NetworkConfig` the class reads, plus the instance field `ethPriceUSD`
(default 2000).  `maxTradeSizeWei` is `parseEther(config.execution.maxTradeSize)`
and `maxGasPriceWei` is `parseUnits(config.execution.maxGasPrice, 'gwei')`,
both already converted to wei.  `aaveFeePercentage` is
`config.flashLoanProviders.aave?.feePercentage` (`none` models an absent
provider entry).  `dexes` models `Object.values(config.dexes)` as a list of
(name, feePercentage-in-basis-points) entries. -/
structure Config where
  aaveFeePercentage : Option ℚ
  dexes : List (String × Int)
  maxGasPriceWei : Int
  maxTradeSizeWei : Int
  minProfitUSD : ℚ
  minProfitPercentage : ℚ
  maxSlippageBps : ℚ
  ethPriceUSD : ℚ
deriving DecidableEq, Repr

/-- `calculateOptimalAmount` (ProfitCalculator.ts lines 106-125): recommended
amount is the smaller of a tenth of the liquidity and the maximum trade
size, raised to the 0.1-ether minimum when below it.  The two price
arguments are accepted and ignored, exactly as in the source. -/
def calculateOptimalAmount (maxTradeSizeWei : Int)
    (buyPrice sellPrice availableLiquidity : Int) : Int :=
  let _ := buyPrice
  let _ := sellPrice
  let tenPercentLiquidity := bnDiv availableLiquidity 10
  let recommendedAmount :=
    if tenPercentLiquidity < maxTradeSizeWei then tenPercentLiquidity
    else maxTradeSizeWei
  let minAmount : Int := 10 ^ 17
  if recommendedAmount < minAmount then minAmount else recommendedAmount

/-- `calculateGrossProfit` (lines 130-138):
`(sellPrice - buyPrice) * amount / 10^18`. -/
def calculateGrossProfit (amount buyPrice sellPrice : Int) : Int :=
  let priceDiff := sellPrice - buyPrice
  bnDiv (priceDiff * amount) WeiPerEther

/-- `calculateFlashLoanFee` (lines 143-150).  The source reads
`config.flashLoanProviders.aave?.feePercentage || 0.09`: the JavaScript
`||` replaces an absent entry and a configured value of `0` alike by the
`0.09` default.  Then `feeBasisPoints = Math.round(aaveFee * 100)` and the
fee is `amount * feeBasisPoints / 10000`. -/
def calculateFlashLoanFee (aaveFeePercentage : Option ℚ) (amount : Int) : Int :=
  let aaveFee : ℚ :=
    match aaveFeePercentage with
    | some f => if f = 0 then 0.09 else f
    | none => 0.09
  let feeBasisPoints := jsRound (aaveFee * 100)
  bnDiv (amount * feeBasisPoints) 10000

/-- `getDexFee` (lines 172-176): the first configured venue with this name
supplies the fee; an absent venue, and a configured fee of `0` (falsy under
the source's `|| 30`), yield the 30-basis-point default. -/
def getDexFee (dexes : List (String × Int)) (dexName : String) : Int :=
  match dexes.find? (fun d => d.1 == dexName) with
  | some d => if d.2 = 0 then 30 else d.2
  | none => 30

/-- `calculateDexFees` (lines 155-167):
`amount * (buyFee + sellFee) / 10000`. -/
def calculateDexFees (dexes : List (String × Int))
    (amount : Int) (buyDex sellDex : String) : Int :=
  let buyFee := getDexFee dexes buyDex
  let sellFee := getDexFee dexes sellDex
  let totalFeeBasisPoints := buyFee + sellFee
  bnDiv (amount * totalFeeBasisPoints) 10000

/-- `estimateGasCost` (lines 181-194): a fixed 400000-gas estimate times
the configured gas-price ceiling. -/
def estimateGasCost (maxGasPriceWei : Int) : Int :=
  let estimatedGas : Int := 400000
  estimatedGas * maxGasPriceWei

/-- `calculateProfitPercentage` (lines 199-208):
`netProfit.mul(10000).div(amount).toNumber() / 100`, with `0` returned for
a zero amount. -/
def calculateProfitPercentage (netProfit amount : Int) : ℚ :=
  if amount = 0 then 0
  else ((bnDiv (netProfit * 10000) amount : Int) : ℚ) / 100

/-- `calculatePriceImpactPercent` (lines 213-226): the assumed liquidity
depth is hardcoded to 100 times the trade amount, the impact is
`amount * 10000 / assumedLiquidity / 100`, capped at 100.  The price
argument is accepted and ignored, exactly as in the source. -/
def calculatePriceImpactPercent (amount price : Int) : ℚ :=
  let _ := price
  let assumedLiquidity := amount * 100
  let impact := ((bnDiv (amount * 10000) assumedLiquidity : Int) : ℚ) / 100
  min impact 100

/-- `convertToUSD` (lines 265-268): wei to ether, times the instance ETH
price. -/
def convertToUSD (ethPriceUSD : ℚ) (ethAmount : Int) : ℚ :=
  ((ethAmount : ℚ) / 10 ^ 18) * ethPriceUSD

/-- `isOpportunityExecutable` (lines 231-260): net profit strictly
positive, USD value at least the minimum, percentage at least the minimum,
both impacts at most `maxSlippage / 100`. -/
def isOpportunityExecutable (cfg : Config) (netProfit : Int)
    (profitPercentage buyPriceImpact sellPriceImpact : ℚ) : Bool :=
  if netProfit ≤ 0 then false
  else if convertToUSD cfg.ethPriceUSD netProfit < cfg.minProfitUSD then false
  else if profitPercentage < cfg.minProfitPercentage then false
  else
    let maxSlippagePercent := cfg.maxSlippageBps / 100
    if maxSlippagePercent < buyPriceImpact ∨ maxSlippagePercent < sellPriceImpact
    then false
    else true

/-- `calculateProfit` (lines 20-101): the complete profit analysis.  The
source is `async` only for the (pure) gas estimate; the computation is
deterministic in the opportunity and the configuration. -/
def calculateProfit (cfg : Config) (opportunity : ArbitrageOpportunity) :
    ProfitAnalysis :=
  let recommendedAmount := calculateOptimalAmount cfg.maxTradeSizeWei
    opportunity.buyPrice opportunity.sellPrice opportunity.availableLiquidity
  let grossProfit := calculateGrossProfit recommendedAmount
    opportunity.buyPrice opportunity.sellPrice
  let flashLoanFee := calculateFlashLoanFee cfg.aaveFeePercentage recommendedAmount
  let dexFees := calculateDexFees cfg.dexes recommendedAmount
    opportunity.buyDex opportunity.sellDex
  let gasCost := estimateGasCost cfg.maxGasPriceWei
  let netProfit := grossProfit - flashLoanFee - dexFees - gasCost
  let profitPercentage := calculateProfitPercentage netProfit recommendedAmount
  let buyPriceImpact := calculatePriceImpactPercent recommendedAmount
    opportunity.buyPrice
  let sellPriceImpact := calculatePriceImpactPercent recommendedAmount
    opportunity.sellPrice
  { opportunity := opportunity
    grossProfit := grossProfit
    flashLoanFee := flashLoanFee
    gasCost := gasCost
    dexFees := dexFees
    netProfit := netProfit
    profitPercentage := profitPercentage
    recommendedAmount := recommendedAmount
    isExecutable := isOpportunityExecutable cfg netProfit profitPercentage
      buyPriceImpact sellPriceImpact
    priceImpactBuy := buyPriceImpact
    priceImpactSell := sellPriceImpact }

end ProfitCalculator

namespace OpportunityValidator

/-- Rejection reasons of `OpportunityValidator`, one constructor per
distinct reason string in the source (interpolated data dropped). -/
inductive Reason where
  | invalidTokenIn
  | invalidTokenOut
  | sameTokens
  | tokenInBlacklisted
  | tokenOutBlacklisted
  | tokenInNotWhitelisted
  | tokenOutNotWhitelisted
  | sameDex
  | buyDexBlacklisted
  | sellDexBlacklisted
  | invalidBuyPool
  | invalidSellPool
  | buyPriceNotPositive
  | sellPriceNotPositive
  | sellNotAboveBuy
  | liquidityNotPositive
  | insufficientLiquidity
  | profitNotPositive
  | profitBelowMinimum
  | stale
deriving DecidableEq, Repr

/-- Warnings of `OpportunityValidator`, one constructor per distinct
warning string in the source. -/
inductive Warning where
  | veryHighPriceDifference
  | lowPriceDifference
  | lowLiquidity
  | marginalProfit
  | noEstimatedProfit
  | aging
deriving DecidableEq, Repr

/-- The record `ValidationResult`.  The source leaves `warnings` undefined
when empty; that is conflated with the empty list here. -/
structure ValidationResult where
  isValid : Bool
  reason : Option Reason
  warnings : List Warning
deriving DecidableEq, Repr

/-- An accepted result with no reason, as built by the accepting branches. -/
def ok (warnings : List Warning) : ValidationResult :=
  { isValid := true, reason := none, warnings := warnings }

/-- A rejecting result carrying its single reason. -/
def rejected (r : Reason) : ValidationResult :=
  { isValid := false, reason := some r, warnings := [] }

/-- Lowercase hexadecimal digit test, by character code (0-9, a-f). -/
def isLowerHexDigit (c : Char) : Bool :=
  (48 ≤ c.toNat && c.toNat ≤ 57) || (97 ≤ c.toNat && c.toNat ≤ 102)

/-- Model of the external `ethers.utils.isAddress` for all-lowercase
addresses: the string is `0x` followed by exactly 40 lowercase hex digits
(see the header for the scope of this model). -/
def isAddress (s : String) : Bool :=
  match s.data with
  | '0' :: 'x' :: rest => rest.length = 40 && rest.all isLowerHexDigit
  | _ => false

/-- JavaScript `String.prototype.toLowerCase` on the address alphabet:
character-wise `Char.toLower`. -/
def jsToLower (s : String) : String :=
  String.mk (s.data.map Char.toLower)

/-- The validator's own state: the constructor-normalized option sets
(token lists stored lowercased, as the constructor maps `toLowerCase` over
them), the liquidity floor and whitelist flag with their defaults already
resolved, and the one field of `NetworkConfig` the stages read,
`config.execution.minProfitUSD`. -/
structure Validator where
  blacklistedTokens : List String
  whitelistedTokens : List String
  blacklistedDexes : List String
  minLiquidityUSD : ℚ
  useWhitelist : Bool
  minProfitUSD : ℚ
deriving DecidableEq, Repr

/-- `validateTokens` (part_003 lines 123-183): address format, distinct
tokens (case-insensitively), blacklist, then whitelist when enabled. -/
def validateTokens (v : Validator) (opp : ArbitrageOpportunity) :
    ValidationResult :=
  if !isAddress opp.tokenIn then rejected .invalidTokenIn
  else if !isAddress opp.tokenOut then rejected .invalidTokenOut
  else if jsToLower opp.tokenIn = jsToLower opp.tokenOut then
    rejected .sameTokens
  else
    let tokenInLower := jsToLower opp.tokenIn
    let tokenOutLower := jsToLower opp.tokenOut
    if v.blacklistedTokens.contains tokenInLower then
      rejected .tokenInBlacklisted
    else if v.blacklistedTokens.contains tokenOutLower then
      rejected .tokenOutBlacklisted
    else if v.useWhitelist && !v.whitelistedTokens.contains tokenInLower then
      rejected .tokenInNotWhitelisted
    else if v.useWhitelist && !v.whitelistedTokens.contains tokenOutLower then
      rejected .tokenOutNotWhitelisted
    else ok []

/-- `validateDexes` (lines 188-228): distinct venues, venue blacklist,
well-formed pool addresses. -/
def validateDexes (v : Validator) (opp : ArbitrageOpportunity) :
    ValidationResult :=
  if opp.buyDex = opp.sellDex then rejected .sameDex
  else if v.blacklistedDexes.contains opp.buyDex then
    rejected .buyDexBlacklisted
  else if v.blacklistedDexes.contains opp.sellDex then
    rejected .sellDexBlacklisted
  else if !isAddress opp.buyPoolAddress then rejected .invalidBuyPool
  else if !isAddress opp.sellPoolAddress then rejected .invalidSellPool
  else ok []

/-- `validatePrices` (lines 233-277): both prices strictly positive, sell
strictly above buy; warns above 10 percent difference and below 0.3
percent.  `diffPercentage` is
`priceDiff.mul(10000).div(buyPrice).toNumber() / 100`. -/
def validatePrices (opp : ArbitrageOpportunity) : ValidationResult :=
  if opp.buyPrice ≤ 0 then rejected .buyPriceNotPositive
  else if opp.sellPrice ≤ 0 then rejected .sellPriceNotPositive
  else if opp.sellPrice ≤ opp.buyPrice then rejected .sellNotAboveBuy
  else
    let priceDiff := opp.sellPrice - opp.buyPrice
    let diffPercentage : ℚ :=
      ((bnDiv (priceDiff * 10000) opp.buyPrice : Int) : ℚ) / 100
    let warnings :=
      (if 10 < diffPercentage then [Warning.veryHighPriceDifference] else [])
      ++ (if diffPercentage < 0.3 then [Warning.lowPriceDifference] else [])
    ok warnings

/-- `validateLiquidity` (lines 282-314): positive liquidity whose rough
USD value (ether value times the hardcoded 2000 ETH price) meets the
configured floor; warns within 1.5x of the floor. -/
def validateLiquidity (v : Validator) (opp : ArbitrageOpportunity) :
    ValidationResult :=
  if opp.availableLiquidity ≤ 0 then rejected .liquidityNotPositive
  else
    let liquidityETH : ℚ := (opp.availableLiquidity : ℚ) / 10 ^ 18
    let estimatedUSD := liquidityETH * 2000
    if estimatedUSD < v.minLiquidityUSD then rejected .insufficientLiquidity
    else if estimatedUSD < v.minLiquidityUSD * 1.5 then ok [.lowLiquidity]
    else ok []

/-- `validateProfitPotential` (lines 319-357): when an estimate is
present it must be positive and its rough USD value must meet the
configured minimum, warning within 1.2x of it; an absent estimate is only
a warning.  (A present `BigNumber` is always truthy in the source, so the
`some` branch covers every present estimate, zero included.) -/
def validateProfitPotential (v : Validator) (opp : ArbitrageOpportunity) :
    ValidationResult :=
  match opp.estimatedProfit with
  | some p =>
    if p ≤ 0 then rejected .profitNotPositive
    else
      let profitETH : ℚ := (p : ℚ) / 10 ^ 18
      let profitUSD := profitETH * 2000
      if profitUSD < v.minProfitUSD then rejected .profitBelowMinimum
      else if profitUSD < v.minProfitUSD * 1.2 then ok [.marginalProfit]
      else ok []
  | none => ok [.noEstimatedProfit]

/-- `validateFreshness` (lines 362-387): the age in seconds
(`(Date.now() - timestamp) / 1000`, the clock passed here as `now`) must
not exceed 60; warns above half the window. -/
def validateFreshness (opp : ArbitrageOpportunity) (now : Int) :
    ValidationResult :=
  let ageMs := now - opp.timestamp
  let ageSeconds : ℚ := (ageMs : ℚ) / 1000
  let maxAgeSeconds : ℚ := 60
  if maxAgeSeconds < ageSeconds then rejected .stale
  else if maxAgeSeconds / 2 < ageSeconds then ok [.aging]
  else ok []

/-- `validate` (lines 52-118): the six stages in order, fail-fast, with
warnings of accepting stages accumulated in stage order. -/
def validate (v : Validator) (opp : ArbitrageOpportunity) (now : Int) :
    ValidationResult :=
  let t := validateTokens v opp
  if !t.isValid then t
  else
    let d := validateDexes v opp
    if !d.isValid then d
    else
      let p := validatePrices opp
      if !p.isValid then p
      else
        let l := validateLiquidity v opp
        if !l.isValid then l
        else
          let pr := validateProfitPotential v opp
          if !pr.isValid then pr
          else
            let f := validateFreshness opp now
            if !f.isValid then f
            else
              ok (t.warnings ++ d.warnings ++ p.warnings ++ l.warnings
                ++ pr.warnings ++ f.warnings)

end OpportunityValidator

namespace PriceAggregator

/-- Strict lexicographic comparison of character lists by code point,
the order JavaScript's default `Array.prototype.sort` induces on the
(ASCII) address strings compared here. -/
def charListLtb : List Char → List Char → Bool
  | [], [] => false
  | [], _ :: _ => true
  | _ :: _, [] => false
  | a :: as, b :: bs =>
    if a.toNat < b.toNat then true
    else if b.toNat < a.toNat then false
    else charListLtb as bs

/-- Strict string comparison underlying `[a, b].sort()`. -/
def jsStrLtb (a b : String) : Bool := charListLtb a.data b.data

/-- `getPairKey` (part_005 lines 387-391): lower-case both addresses, sort
the two, join with a dash. -/
def getPairKey (tokenA tokenB : String) : String :=
  let a := OpportunityValidator.jsToLower tokenA
  let b := OpportunityValidator.jsToLower tokenB
  if jsStrLtb b a then b ++ "-" ++ a else a ++ "-" ++ b

/-- Splitting helper for `parsePairKey`: split a character list at every
dash. -/
def splitDashAux : List Char → List Char → List (List Char)
  | [], acc => [acc.reverse]
  | c :: cs, acc =>
    if c = '-' then acc.reverse :: splitDashAux cs []
    else splitDashAux cs (c :: acc)

/-- JavaScript `pairKey.split('-')`. -/
def jsSplitDash (s : String) : List String :=
  (splitDashAux s.data []).map String.mk

/-- `parsePairKey` (lines 396-399): destructure the split into the two
tokens (an absent component destructures to the empty string). -/
def parsePairKey (pairKey : String) : String × String :=
  let parts := jsSplitDash pairKey
  (parts.getD 0 "", parts.getD 1 "")

/-- `addPair` (lines 34-43): insert the canonical key into the monitored
set (a JavaScript `Set`, modelled as an insertion-ordered duplicate-free
list). -/
def addPair (monitoredPairs : List String) (tokenA tokenB : String) :
    List String :=
  let pairKey := getPairKey tokenA tokenB
  if pairKey ∈ monitoredPairs then monitoredPairs
  else monitoredPairs ++ [pairKey]

/-- `getMonitoredPairs` (lines 377-382): parse every stored key back into
a token pair. -/
def getMonitoredPairs (monitoredPairs : List String) :
    List (String × String) :=
  monitoredPairs.map parsePairKey

/-- `generateOpportunityId` (lines 404-412): token pair, venues and the
clock reading joined with dashes. -/
def generateOpportunityId (tokenA tokenB buyDex sellDex : String)
    (now : Int) : String :=
  tokenA ++ "-" ++ tokenB ++ "-" ++ buyDex ++ "-" ++ sellDex ++ "-"
    ++ toString now

/-- `createOpportunityIfProfitable` (lines 191-246): requires the sell
quote strictly above the buy quote and a price difference of at least the
hardcoded 0.5 percent synthesis floor; the liquidity field is the
hardcoded `parseEther('10')` placeholder and `estimatedProfit` is the raw
price difference.  `Date.now()` is the explicit `now`. -/
def createOpportunityIfProfitable (tokenA tokenB buyDex sellDex : String)
    (buyPrice sellPrice : Price) (now : Int) : Option ArbitrageOpportunity :=
  if sellPrice.price ≤ buyPrice.price then none
  else
    let priceDiff := sellPrice.price - buyPrice.price
    let diffPercentage : ℚ :=
      ((bnDiv (priceDiff * 10000) buyPrice.price : Int) : ℚ) / 100
    let minDiffPercentage : ℚ := 0.5
    if diffPercentage < minDiffPercentage then none
    else
      let availableLiquidity : Int := 10 * 10 ^ 18
      some
        { id := generateOpportunityId tokenA tokenB buyDex sellDex now
          tokenIn := tokenA
          tokenOut := tokenB
          buyDex := buyDex
          sellDex := sellDex
          buyPrice := buyPrice.price
          sellPrice := sellPrice.price
          buyPoolAddress := buyPrice.poolAddress.getD AddressZero
          sellPoolAddress := sellPrice.poolAddress.getD AddressZero
          availableLiquidity := availableLiquidity
          timestamp := now
          blockNumber := max buyPrice.blockNumber sellPrice.blockNumber
          estimatedProfit := some priceDiff }

/-- Both directions tried for one unordered venue pair (lines 156-181):
buy on the first venue and sell on the second, then the reverse. -/
def opportunitiesForPricePair (tokenA tokenB : String)
    (d1 d2 : String × Price) (now : Int) : List ArbitrageOpportunity :=
  (createOpportunityIfProfitable tokenA tokenB d1.1 d2.1 d1.2 d2.2 now).toList
    ++ (createOpportunityIfProfitable tokenA tokenB d2.1 d1.1 d2.2 d1.2
      now).toList

/-- The double loop of `detectOpportunitiesForPair` (lines 146-183) over
all index pairs i < j of the fetched price list. -/
def comparePricePairs (tokenA tokenB : String) (now : Int) :
    List (String × Price) → List ArbitrageOpportunity
  | [] => []
  | d :: rest =>
    rest.flatMap (fun e => opportunitiesForPricePair tokenA tokenB d e now)
      ++ comparePricePairs tokenA tokenB now rest

/-- `detectOpportunitiesForPair` (lines 113-186) after price fetching: the
`prices` list models the per-venue quote map in venue-registration order
(a JavaScript `Map`, so its keys - the venue names - are distinct); venues
that are not ready or fail to quote are absent.  With fewer than two
quotes nothing is compared. -/
def detectOpportunitiesForPair (tokenA tokenB : String)
    (prices : List (String × Price)) (now : Int) :
    List ArbitrageOpportunity :=
  if prices.length < 2 then []
  else comparePricePairs tokenA tokenB now prices

end PriceAggregator

section ProfitModelClaims

open ProfitCalculator

/-- Positivity of the recommended amount: the 0.1-ether floor of
`calculateOptimalAmount` makes it strictly positive on every input. -/
theorem calculateOptimalAmount_pos (maxTradeSizeWei buyPrice sellPrice liq : Int) :
    0 < calculateOptimalAmount maxTradeSizeWei buyPrice sellPrice liq := by
  unfold calculateOptimalAmount
  dsimp only
  split_ifs <;> omega

/-- The per-leg impact estimate collapses to the constant 1 for every
strictly positive amount, since the assumed depth is 100x the amount. -/
theorem calculatePriceImpactPercent_eq_one (amount price : Int)
    (h : 0 < amount) : calculatePriceImpactPercent amount price = 1 := by
  have h100 : (amount * 100 : Int) ≠ 0 := by omega
  have htd : (amount * 10000).tdiv (amount * 100) = 100 := by
    have h1 : amount * 10000 = amount * 100 * 100 := by ring
    rw [h1, Int.mul_tdiv_cancel_left 100 h100]
  simp only [calculatePriceImpactPercent, bnDiv, htd]
  norm_num

/-- C8.  `calculateOptimalAmount` returns
`min(maxTradeSize, availableLiquidity / 10)` (truncating division by 10),
raised to the minimum viable `0.1` ether (`10^17` wei) when below it, for
every buy price, sell price, liquidity and configured maximum trade
size. -/
theorem c8_optimal_amount
    (maxTradeSizeWei buyPrice sellPrice availableLiquidity : Int) :
    calculateOptimalAmount maxTradeSizeWei buyPrice sellPrice
        availableLiquidity
      = max (min maxTradeSizeWei (bnDiv availableLiquidity 10)) (10 ^ 17) := by
  unfold calculateOptimalAmount
  dsimp only
  split_ifs <;> omega

/-- C7.  The price-impact estimate of the ProfitModel is the constant 1
percent: for every strictly positive amount and every price the per-leg
estimate equals 1, and both impact fields of every computed
`ProfitAnalysis` equal 1 irrespective of the opportunity and the
configuration. -/
theorem c7_price_impact_constant :
    (∀ amount price : Int, 0 < amount →
        calculatePriceImpactPercent amount price = 1)
    ∧ ∀ (cfg : Config) (opp : ArbitrageOpportunity),
        (calculateProfit cfg opp).priceImpactBuy = 1
        ∧ (calculateProfit cfg opp).priceImpactSell = 1 := by
  refine ⟨fun amount price h => calculatePriceImpactPercent_eq_one amount price h, ?_⟩
  intro cfg opp
  have hpos := calculateOptimalAmount_pos cfg.maxTradeSizeWei opp.buyPrice
    opp.sellPrice opp.availableLiquidity
  constructor <;>
    simp only [calculateProfit] <;>
    exact calculatePriceImpactPercent_eq_one _ _ hpos

/-- C7 witness: at amount `10^18` and price `3` the impact estimate is 1. -/
theorem c7_price_impact_constant_witness :
    (0 : Int) < 10 ^ 18
    ∧ ProfitCalculator.calculatePriceImpactPercent (10 ^ 18) 3 = 1 :=
  ⟨by norm_num, c7_price_impact_constant.1 (10 ^ 18) 3 (by norm_num)⟩

/-- C1 counterexample.  With recommended amount `1.0` (`10^18`), buy price
`100`, sell price `105` (both at the same 18-decimal scale) and zero
flash-loan fee, DEX fees and gas cost, the net profit is `5` scaled units
(`5 * 10^18`), but the computed profit percentage is `500`, not the `5`
the claim states: `netProfit / amount * 100 = 5 / 1 * 100`. -/
theorem c1_profit_example_counterexample :
    ProfitCalculator.calculateGrossProfit (10 ^ 18) (100 * 10 ^ 18)
        (105 * 10 ^ 18) - 0 - 0 - 0 = 5 * 10 ^ 18
    ∧ ProfitCalculator.calculateProfitPercentage (5 * 10 ^ 18) (10 ^ 18) ≠ 5 := by
  constructor
  · norm_num [calculateGrossProfit, bnDiv, WeiPerEther, Int.tdiv]
  · norm_num [calculateProfitPercentage, bnDiv, Int.tdiv]

/-- C1 amended.  Same scenario: the gross profit (hence, with zero
flash-loan fee, DEX fees and gas, the net profit) equals `5` scaled units,
and the computed profit percentage equals `500` percent, in accordance
with `netProfit / amount * 100`. -/
theorem c1_profit_example_amended :
    ProfitCalculator.calculateGrossProfit (10 ^ 18) (100 * 10 ^ 18)
        (105 * 10 ^ 18) = 5 * 10 ^ 18
    ∧ ProfitCalculator.calculateProfitPercentage (5 * 10 ^ 18 - 0 - 0 - 0)
        (10 ^ 18) = 500 := by
  constructor
  · norm_num [calculateGrossProfit, bnDiv, WeiPerEther, Int.tdiv]
  · norm_num [calculateProfitPercentage, bnDiv, Int.tdiv]

/-- C3 counterexample.  A provider configured with fee zero does not make
the flash-loan fee zero: `0` is falsy under the source's `|| 0.09`, so the
fee of a `10^18` trade is `9 * 10^14` (9 basis points), not
`amount * 0 / 10000 = 0`. -/
theorem c3_flashloan_fee_counterexample :
    ProfitCalculator.calculateFlashLoanFee (some 0) (10 ^ 18) = 9 * 10 ^ 14
    ∧ (9 * 10 ^ 14 : Int) ≠ 0 := by
  constructor
  · norm_num [calculateFlashLoanFee, jsRound, bnDiv, Int.tdiv]
  · norm_num

/-- C3 amended.  The flash-loan fee is
`amount * round(100 * f) / 10000` (truncating division) where `f` is the
configured aave fee percentage when present and nonzero; an absent entry
and a configured zero alike fall back to the `0.09` percent default, so
the fee is then `amount * 9 / 10000`, never zero for large amounts. -/
theorem c3_flashloan_fee_amended (amount : Int) (f : ℚ) :
    (f ≠ 0 → ProfitCalculator.calculateFlashLoanFee (some f) amount
      = bnDiv (amount * jsRound (f * 100)) 10000)
    ∧ ProfitCalculator.calculateFlashLoanFee (some 0) amount
      = bnDiv (amount * 9) 10000
    ∧ ProfitCalculator.calculateFlashLoanFee none amount
      = bnDiv (amount * 9) 10000 := by
  refine ⟨fun hf => ?_, ?_, ?_⟩
  · simp only [calculateFlashLoanFee, if_neg hf]
  · simp only [calculateFlashLoanFee, if_pos rfl]
    norm_num [jsRound]
  · simp only [calculateFlashLoanFee]
    norm_num [jsRound]

/-- C3 amended witness: the configured fee `1/10` percent gives basis
points `round(10) = 10`. -/
theorem c3_flashloan_fee_amended_witness :
    ((1 : ℚ)/10 ≠ 0)
    ∧ ProfitCalculator.calculateFlashLoanFee (some (1/10)) (10 ^ 18)
      = bnDiv (10 ^ 18 * jsRound ((1/10) * 100)) 10000 :=
  ⟨by norm_num, (c3_flashloan_fee_amended (10 ^ 18) (1/10)).1 (by norm_num)⟩

end ProfitModelClaims

section ValidatorClaims

open OpportunityValidator

/-- Bridge between the millisecond age and the second-denominated
comparisons of `validateFreshness`. -/
theorem qdiv1000_lt_iff (a c : Int) :
    (c : ℚ) < (a : ℚ) / 1000 ↔ 1000 * c < a := by
  rw [lt_div_iff₀ (by norm_num : (0 : ℚ) < 1000)]
  rw [show ((c : ℚ)) * 1000 = ((1000 * c : Int) : ℚ) by push_cast; ring]
  exact Int.cast_lt

/-- C6.  The freshness stage rejects exactly the opportunities older than
the 60-second window (60000 ms) with the staleness reason, and accepts the
rest, warning precisely when the age lies in the second half of the
window (beyond 30 seconds). -/
theorem c6_freshness_window (opp : ArbitrageOpportunity) (now : Int) :
    (60000 < now - opp.timestamp →
      validateFreshness opp now = rejected .stale)
    ∧ (now - opp.timestamp ≤ 60000 →
      validateFreshness opp now
        = ok (if 30000 < now - opp.timestamp then [.aging] else [])) := by
  have h60 : ((60 : ℚ) < ((now - opp.timestamp : Int) : ℚ) / 1000)
      ↔ 60000 < now - opp.timestamp := by
    rw [show (60 : ℚ) = ((60 : Int) : ℚ) by norm_num, qdiv1000_lt_iff]
    norm_num
  have h30 : ((60 : ℚ) / 2 < ((now - opp.timestamp : Int) : ℚ) / 1000)
      ↔ 30000 < now - opp.timestamp := by
    rw [show (60 : ℚ) / 2 = ((30 : Int) : ℚ) by norm_num, qdiv1000_lt_iff]
    norm_num
  constructor
  · intro h
    simp only [validateFreshness]
    rw [if_pos (h60.mpr h)]
  · intro h
    simp only [validateFreshness]
    rw [if_neg (fun hc => absurd (h60.mp hc) (not_lt.mpr h))]
    by_cases h2 : 30000 < now - opp.timestamp
    · rw [if_pos (h30.mpr h2), if_pos h2]
    · rw [if_neg (fun hc => absurd (h30.mp hc) h2), if_neg h2]

/-- A validator configuration with no blacklists or whitelist, the
defaults minLiquidityUSD = 10000 and useWhitelist = false, and the default
minProfitUSD = 50. -/
def sampleValidator : Validator :=
  { blacklistedTokens := []
    whitelistedTokens := []
    blacklistedDexes := []
    minLiquidityUSD := 10000
    useWhitelist := false
    minProfitUSD := 50 }

/-- A concrete well-formed opportunity detected at clock time 0: lowercase
token and pool addresses, distinct venues, a 5 percent price gap at the
18-decimal scale, 10 ether of liquidity and a positive profit estimate. -/
def sampleOpportunity : ArbitrageOpportunity :=
  { id := "op-1"
    tokenIn := "0xaaaaaaaaaaaaaaaaaaaaaaaaaaaaaaaaaaaaaaaa"
    tokenOut := "0xbbbbbbbbbbbbbbbbbbbbbbbbbbbbbbbbbbbbbbbb"
    buyDex := "Uniswap V2"
    sellDex := "SushiSwap"
    buyPrice := 100 * 10 ^ 18
    sellPrice := 105 * 10 ^ 18
    buyPoolAddress := "0xcccccccccccccccccccccccccccccccccccccccc"
    sellPoolAddress := "0xdddddddddddddddddddddddddddddddddddddddd"
    availableLiquidity := 10 * 10 ^ 18
    timestamp := 0
    blockNumber := 1
    estimatedProfit := some (5 * 10 ^ 18) }

/-- C6 witness: an opportunity 61 seconds old is rejected as stale, one
59 seconds old is accepted with the aging warning. -/
theorem c6_freshness_window_witness :
    validateFreshness sampleOpportunity 61000 = rejected .stale
    ∧ validateFreshness sampleOpportunity 59000 = ok [.aging] := by
  constructor
  · exact (c6_freshness_window sampleOpportunity 61000).1 (by norm_num [sampleOpportunity])
  · have h := (c6_freshness_window sampleOpportunity 59000).2
      (by norm_num [sampleOpportunity])
    simpa [sampleOpportunity] using h

/-- C2 counterexample.  The verdict of `validate` is not a function of the
configuration and the opportunity alone: the freshness stage reads the
ambient clock (`Date.now()`, the explicit `now` parameter here), so the
same validator and the same immutable opportunity yield an acceptance at
one call time and a staleness rejection 2 seconds later. -/
theorem c2_validate_pure_counterexample :
    validate sampleValidator sampleOpportunity 59000
      ≠ validate sampleValidator sampleOpportunity 61000 := by
  have ht : validateTokens sampleValidator sampleOpportunity = ok [] := by decide
  have hd : validateDexes sampleValidator sampleOpportunity = ok [] := by decide
  have hp : validatePrices sampleOpportunity = ok [] := by
    norm_num [validatePrices, sampleOpportunity, bnDiv, Int.tdiv, ok]
  have hl : validateLiquidity sampleValidator sampleOpportunity = ok [] := by
    norm_num [validateLiquidity, sampleValidator, sampleOpportunity, ok]
  have hpr : validateProfitPotential sampleValidator sampleOpportunity
      = ok [] := by
    norm_num [validateProfitPotential, sampleValidator, sampleOpportunity, ok]
  have hf59 : validateFreshness sampleOpportunity 59000 = ok [.aging] :=
    c6_freshness_window_witness.2
  have hf61 : validateFreshness sampleOpportunity 61000 = rejected .stale :=
    c6_freshness_window_witness.1
  have h1 : validate sampleValidator sampleOpportunity 59000 = ok [.aging] := by
    simp [validate, ht, hd, hp, hl, hpr, hf59, ok]
  have h2 : validate sampleValidator sampleOpportunity 61000
      = rejected .stale := by
    simp [validate, ht, hd, hp, hl, hpr, hf61, ok, rejected]
  rw [h1, h2]
  decide

/-- C2 amended.  `validate` is deterministic given the clock reading: its
verdict is a pure function of the validator configuration, the
opportunity's fields and the evaluation time, and it depends on the latter
only through the opportunity's age, so shifting the detection timestamp
and the evaluation time together leaves the verdict unchanged.  (Two calls
at different times on the same opportunity may still differ, as the
counterexample shows.) -/
theorem c2_validate_pure_amended (v : Validator) (opp : ArbitrageOpportunity)
    (now d : Int) :
    validate v opp now
      = validate v { opp with timestamp := opp.timestamp + d } (now + d) := by
  have hshift : now + d - (opp.timestamp + d) = now - opp.timestamp := by ring
  have hf : validateFreshness { opp with timestamp := opp.timestamp + d }
      (now + d) = validateFreshness opp now := by
    unfold validateFreshness
    dsimp only
    rw [hshift]
  have ht : validateTokens v { opp with timestamp := opp.timestamp + d }
      = validateTokens v opp := rfl
  have hd : validateDexes v { opp with timestamp := opp.timestamp + d }
      = validateDexes v opp := rfl
  have hp : validatePrices { opp with timestamp := opp.timestamp + d }
      = validatePrices opp := rfl
  have hl : validateLiquidity v { opp with timestamp := opp.timestamp + d }
      = validateLiquidity v opp := rfl
  have hpr : validateProfitPotential v
      { opp with timestamp := opp.timestamp + d }
      = validateProfitPotential v opp := rfl
  unfold validate
  rw [ht, hd, hp, hl, hpr, hf]

end ValidatorClaims

section AggregatorClaims

open PriceAggregator

/-- Characters with equal code points are equal. -/
theorem char_toNat_inj {a b : Char} (h : a.toNat = b.toNat) : a = b :=
  Char.eq_of_val_eq (UInt32.ext h)

/-- The strict list comparison is asymmetric. -/
theorem charListLtb_asymm :
    ∀ (x y : List Char), charListLtb x y = true → charListLtb y x = false
  | [], [] => by simp [charListLtb]
  | [], _ :: _ => by simp [charListLtb]
  | _ :: _, [] => by simp [charListLtb]
  | a :: as, b :: bs => by
    by_cases hab : a.toNat < b.toNat <;> by_cases hba : b.toNat < a.toNat <;>
      simp [charListLtb, hab, hba] <;> try omega
    exact charListLtb_asymm as bs

/-- Lists that the strict comparison puts below each other in neither
direction are equal. -/
theorem charListLtb_eq_of_not_lt :
    ∀ (x y : List Char), charListLtb x y = false → charListLtb y x = false →
      x = y
  | [], [] => by simp
  | [], _ :: _ => by simp [charListLtb]
  | _ :: _, [] => by simp [charListLtb]
  | a :: as, b :: bs => by
    by_cases hab : a.toNat < b.toNat <;> by_cases hba : b.toNat < a.toNat <;>
      simp [charListLtb, hab, hba] <;> try omega
    intro h1 h2
    exact ⟨char_toNat_inj (by omega), charListLtb_eq_of_not_lt as bs h1 h2⟩

/-- The underlying string comparison of the pair-key sort: not mutually
below means equal. -/
theorem jsStrLtb_eq_of_not_lt {a b : String} (h1 : jsStrLtb a b = false)
    (h2 : jsStrLtb b a = false) : a = b :=
  String.ext (charListLtb_eq_of_not_lt a.data b.data h1 h2)

/-- The canonical pair key ignores the order of its two arguments. -/
theorem jsStrLtb_asymm {a b : String} (h : jsStrLtb a b = true) :
    jsStrLtb b a = false :=
  charListLtb_asymm a.data b.data h

/-- The canonical pair key ignores the order of its two arguments. -/
theorem getPairKey_comm (tokenA tokenB : String) :
    getPairKey tokenA tokenB = getPairKey tokenB tokenA := by
  unfold getPairKey
  dsimp only
  rcases hba : jsStrLtb (OpportunityValidator.jsToLower tokenB)
      (OpportunityValidator.jsToLower tokenA) with _ | _
  · rcases hab : jsStrLtb (OpportunityValidator.jsToLower tokenA)
        (OpportunityValidator.jsToLower tokenB) with _ | _
    · rw [jsStrLtb_eq_of_not_lt hab hba]
    · simp
  · rw [jsStrLtb_asymm hba]
    simp

/-- C9.  Pair-key canonicalization is order-independent: `getPairKey`,
`addPair` into any monitored set, and the parsed entries reported by
`getMonitoredPairs` afterwards all agree between `(A, B)` and
`(B, A)`. -/
theorem c9_pair_key_commutative (tokenA tokenB : String)
    (monitoredPairs : List String) :
    getPairKey tokenA tokenB = getPairKey tokenB tokenA
    ∧ addPair monitoredPairs tokenA tokenB
      = addPair monitoredPairs tokenB tokenA
    ∧ getMonitoredPairs (addPair monitoredPairs tokenA tokenB)
      = getMonitoredPairs (addPair monitoredPairs tokenB tokenA) := by
  have hk := getPairKey_comm tokenA tokenB
  have ha : addPair monitoredPairs tokenA tokenB
      = addPair monitoredPairs tokenB tokenA := by
    unfold addPair
    rw [hk]
  exact ⟨hk, ha, by rw [ha]⟩

/-- Inversion of `createOpportunityIfProfitable`: a synthesized
opportunity determines every field, the guard `sellPrice > buyPrice` and
the 0.5 percent synthesis floor. -/
theorem createOpportunityIfProfitable_some
    {tokenA tokenB buyDex sellDex : String} {buyPrice sellPrice : Price}
    {now : Int} {o : ArbitrageOpportunity}
    (h : createOpportunityIfProfitable tokenA tokenB buyDex sellDex buyPrice
      sellPrice now = some o) :
    o.tokenIn = tokenA ∧ o.tokenOut = tokenB
    ∧ o.buyDex = buyDex ∧ o.sellDex = sellDex
    ∧ o.buyPrice = buyPrice.price ∧ o.sellPrice = sellPrice.price
    ∧ o.availableLiquidity = 10 * 10 ^ 18
    ∧ o.estimatedProfit = some (sellPrice.price - buyPrice.price)
    ∧ buyPrice.price < sellPrice.price
    ∧ ¬(((bnDiv ((sellPrice.price - buyPrice.price) * 10000)
        buyPrice.price : Int) : ℚ) / 100 < 0.5) := by
  simp only [createOpportunityIfProfitable] at h
  split_ifs at h with h1 h2
  have he := Option.some.inj h
  subst he
  exact ⟨rfl, rfl, rfl, rfl, rfl, rfl, rfl, rfl, not_le.mp h1, h2⟩

/-- C10.  Every synthesized opportunity carries the hardcoded
`parseEther('10')` liquidity placeholder and the raw price difference as
its profit estimate. -/
theorem c10_liquidity_profit_placeholder
    (tokenA tokenB buyDex sellDex : String) (buyPrice sellPrice : Price)
    (now : Int) (o : ArbitrageOpportunity)
    (h : createOpportunityIfProfitable tokenA tokenB buyDex sellDex buyPrice
      sellPrice now = some o) :
    o.availableLiquidity = 10 * 10 ^ 18
    ∧ o.estimatedProfit = some (o.sellPrice - o.buyPrice) := by
  obtain ⟨-, -, -, -, hb, hs, hl, he, -, -⟩ :=
    createOpportunityIfProfitable_some h
  exact ⟨hl, by rw [he, hb, hs]⟩

/-- C5.  A direction yields a candidate only if the sell quote is strictly
above the buy quote and the exact percentage difference
`(sell - buy) / buy * 100` is at least the 0.5 synthesis floor (the
truncating on-chain-scale division loses nothing against an integral
threshold); and a pair of quotes with `sellPrice <= buyPrice` in both
orderings synthesizes nothing. -/
theorem c5_synthesis_threshold :
    (∀ (tokenA tokenB buyDex sellDex : String) (buyPrice sellPrice : Price)
        (now : Int) (o : ArbitrageOpportunity),
        createOpportunityIfProfitable tokenA tokenB buyDex sellDex buyPrice
          sellPrice now = some o →
        0 < buyPrice.price ∧ buyPrice.price < sellPrice.price
        ∧ (1 / 2 : ℚ) ≤ ((sellPrice.price : ℚ) - (buyPrice.price : ℚ))
            / (buyPrice.price : ℚ) * 100)
    ∧ ∀ (tokenA tokenB dex1 dex2 : String) (q1 q2 : Price) (now : Int),
        q1.price ≤ q2.price → q2.price ≤ q1.price →
        detectOpportunitiesForPair tokenA tokenB [(dex1, q1), (dex2, q2)] now
          = [] := by
  constructor
  · intro tokenA tokenB buyDex sellDex bp sp now o h
    obtain ⟨-, -, -, -, -, -, -, -, hlt, hq⟩ :=
      createOpportunityIfProfitable_some h
    set d : Int := sp.price - bp.price with hd
    set b : Int := bp.price with hb
    have hdpos : 0 < d := by omega
    have hq50 : (50 : Int) ≤ bnDiv (d * 10000) b := by
      by_contra hcon
      apply hq
      have : (bnDiv (d * 10000) b : ℚ) < 50 := by exact_mod_cast not_le.mp hcon
      linarith
    have hbpos : 0 < b := by
      rcases lt_trichotomy b 0 with hneg | hzero | hpos
      · have : bnDiv (d * 10000) b ≤ 0 :=
          Int.tdiv_nonpos (by positivity) (le_of_lt hneg)
        omega
      · exfalso
        rw [hzero] at hq50
        have hz : bnDiv (d * 10000) 0 = 0 := by simp [bnDiv]
        omega
      · exact hpos
    have hediv : bnDiv (d * 10000) b = (d * 10000) / b :=
      Int.tdiv_eq_ediv (by positivity) (le_of_lt hbpos)
    have hmul : (50 : Int) * b ≤ d * 10000 :=
      (Int.le_ediv_iff_mul_le hbpos).mp (hediv ▸ hq50)
    refine ⟨hbpos, hlt, ?_⟩
    have hbq : (0 : ℚ) < (b : ℚ) := by exact_mod_cast hbpos
    rw [div_mul_eq_mul_div, le_div_iff₀ hbq]
    have hmq : (50 : ℚ) * (b : ℚ) ≤ (d : ℚ) * 10000 := by exact_mod_cast hmul
    have hdq : ((sp.price : ℚ) - (bp.price : ℚ)) = (d : ℚ) := by
      rw [hd]; push_cast; ring
    rw [hdq]
    linarith
  · intro tokenA tokenB dex1 dex2 q1 q2 now h12 h21
    have hc1 : createOpportunityIfProfitable tokenA tokenB dex1 dex2 q1 q2 now
        = none := by
      unfold createOpportunityIfProfitable
      rw [if_pos h21]
    have hc2 : createOpportunityIfProfitable tokenA tokenB dex2 dex1 q2 q1 now
        = none := by
      unfold createOpportunityIfProfitable
      rw [if_pos h12]
    simp [detectOpportunitiesForPair, comparePricePairs,
      opportunitiesForPricePair, hc1, hc2]

/-- Field facts for every member of the pairwise-comparison output: the
price guard, distinct venue names (from the distinct venue keys of the
quote map), and the monitored pair copied into the token fields. -/
theorem mem_comparePricePairs_props (tokenA tokenB : String) (now : Int) :
    ∀ (prices : List (String × Price)),
      prices.Pairwise (fun a b => a.1 ≠ b.1) →
      ∀ o ∈ comparePricePairs tokenA tokenB now prices,
        o.buyPrice < o.sellPrice ∧ o.buyDex ≠ o.sellDex
        ∧ o.tokenIn = tokenA ∧ o.tokenOut = tokenB
  | [], _, o, ho => by simp [comparePricePairs] at ho
  | d :: rest, hp, o, ho => by
    rw [comparePricePairs] at ho
    rcases List.mem_append.mp ho with h1 | h2
    · rcases List.mem_flatMap.mp h1 with ⟨e, he, hoe⟩
      have hne : d.1 ≠ e.1 := (List.pairwise_cons.mp hp).1 e he
      unfold opportunitiesForPricePair at hoe
      rcases List.mem_append.mp hoe with hx | hx
      · have hsome := Option.mem_def.mp (Option.mem_toList.mp hx)
        obtain ⟨hti, hto, hbd, hsd, hbp, hsp, -, -, hlt, -⟩ :=
          createOpportunityIfProfitable_some hsome
        exact ⟨by rw [hbp, hsp]; exact hlt, by rw [hbd, hsd]; exact hne,
          hti, hto⟩
      · have hsome := Option.mem_def.mp (Option.mem_toList.mp hx)
        obtain ⟨hti, hto, hbd, hsd, hbp, hsp, -, -, hlt, -⟩ :=
          createOpportunityIfProfitable_some hsome
        exact ⟨by rw [hbp, hsp]; exact hlt, by rw [hbd, hsd]; exact hne.symm,
          hti, hto⟩
    · exact mem_comparePricePairs_props tokenA tokenB now rest
        (List.pairwise_cons.mp hp).2 o h2

/-- C4 amended.  Every opportunity the aggregator synthesizes satisfies
`sellPrice > buyPrice` and `buyDex != sellDex`; it satisfies
`tokenIn != tokenOut` provided the monitored pair consists of two distinct
tokens - which `addPair` does not enforce, so a degenerate pair (the same
address twice, possibly in different case) yields `tokenIn = tokenOut`
(see the counterexample). -/
theorem c4_invariants_amended (tokenA tokenB : String)
    (prices : List (String × Price)) (now : Int)
    (hnames : prices.Pairwise (fun a b => a.1 ≠ b.1))
    (htok : tokenA ≠ tokenB) :
    ∀ o ∈ detectOpportunitiesForPair tokenA tokenB prices now,
      o.buyPrice < o.sellPrice ∧ o.buyDex ≠ o.sellDex
      ∧ o.tokenIn ≠ o.tokenOut := by
  intro o ho
  unfold detectOpportunitiesForPair at ho
  split_ifs at ho with hlen
  · exact absurd ho (List.not_mem_nil o)
  · obtain ⟨hprice, hdex, hti, hto⟩ :=
      mem_comparePricePairs_props tokenA tokenB now prices hnames o ho
    exact ⟨hprice, hdex, by rw [hti, hto]; exact htok⟩

/-- A venue quote at price 100 (18-decimal scale) from the first sample
venue. -/
def sampleQuoteLow : Price :=
  { tokenA := "0xaaaaaaaaaaaaaaaaaaaaaaaaaaaaaaaaaaaaaaaa"
    tokenB := "0xbbbbbbbbbbbbbbbbbbbbbbbbbbbbbbbbbbbbbbbb"
    price := 100 * 10 ^ 18
    inversePrice := 10 ^ 16
    blockNumber := 100
    timestamp := 0
    source := "Uniswap V2"
    poolAddress := some "0xcccccccccccccccccccccccccccccccccccccccc" }

/-- A venue quote at price 101 (a 1 percent gap above `sampleQuoteLow`,
clearing the 0.5 percent synthesis floor) from the second sample venue. -/
def sampleQuoteHigh : Price :=
  { tokenA := "0xaaaaaaaaaaaaaaaaaaaaaaaaaaaaaaaaaaaaaaaa"
    tokenB := "0xbbbbbbbbbbbbbbbbbbbbbbbbbbbbbbbbbbbbbbbb"
    price := 101 * 10 ^ 18
    inversePrice := 10 ^ 16
    blockNumber := 101
    timestamp := 0
    source := "SushiSwap"
    poolAddress := some "0xdddddddddddddddddddddddddddddddddddddddd" }

/-- The opportunity the aggregator synthesizes from the two sample quotes
for a monitored pair `(tokenA, tokenB)`. -/
def sampleSynthesized (tokenA tokenB : String) : ArbitrageOpportunity :=
  { id := generateOpportunityId tokenA tokenB "Uniswap V2" "SushiSwap" 0
    tokenIn := tokenA
    tokenOut := tokenB
    buyDex := "Uniswap V2"
    sellDex := "SushiSwap"
    buyPrice := 100 * 10 ^ 18
    sellPrice := 101 * 10 ^ 18
    buyPoolAddress := "0xcccccccccccccccccccccccccccccccccccccccc"
    sellPoolAddress := "0xdddddddddddddddddddddddddddddddddddddddd"
    availableLiquidity := 10 * 10 ^ 18
    timestamp := 0
    blockNumber := 101
    estimatedProfit := some (10 ^ 18) }

/-- Evaluation of the synthesis on the sample quotes, profitable
direction. -/
theorem createSample_eq (tokenA tokenB : String) :
    createOpportunityIfProfitable tokenA tokenB "Uniswap V2" "SushiSwap"
      sampleQuoteLow sampleQuoteHigh 0 = some (sampleSynthesized tokenA tokenB) := by
  norm_num [createOpportunityIfProfitable, sampleQuoteLow, sampleQuoteHigh,
    sampleSynthesized, bnDiv, Int.tdiv]

/-- Evaluation of the synthesis on the sample quotes, losing direction. -/
theorem createSampleRev_eq (tokenA tokenB : String) :
    createOpportunityIfProfitable tokenA tokenB "SushiSwap" "Uniswap V2"
      sampleQuoteHigh sampleQuoteLow 0 = none := by
  unfold createOpportunityIfProfitable
  rw [if_pos]
  norm_num [sampleQuoteLow, sampleQuoteHigh]

/-- Evaluation of a full pair scan over the two sample venues: exactly the
one profitable direction is emitted. -/
theorem sampleDetect_eq (tokenA tokenB : String) :
    detectOpportunitiesForPair tokenA tokenB
      [("Uniswap V2", sampleQuoteLow), ("SushiSwap", sampleQuoteHigh)] 0
      = [sampleSynthesized tokenA tokenB] := by
  unfold detectOpportunitiesForPair
  rw [if_neg (by norm_num)]
  simp [comparePricePairs, opportunitiesForPricePair, createSample_eq,
    createSampleRev_eq]

/-- C4 counterexample.  `addPair` accepts the same address twice (here in
two spellings differing only in case), the canonical key degenerates, and
the aggregator then synthesizes an opportunity with
`tokenIn = tokenOut` - the claimed invariant fails. -/
theorem c4_invariants_counterexample :
    parsePairKey (getPairKey "0xAAAAAAAAAAAAAAAAAAAAAAAAAAAAAAAAAAAAAAAA"
        "0xaaaaaaaaaaaaaaaaaaaaaaaaaaaaaaaaaaaaaaaa")
      = ("0xaaaaaaaaaaaaaaaaaaaaaaaaaaaaaaaaaaaaaaaa",
        "0xaaaaaaaaaaaaaaaaaaaaaaaaaaaaaaaaaaaaaaaa")
    ∧ (detectOpportunitiesForPair "0xaaaaaaaaaaaaaaaaaaaaaaaaaaaaaaaaaaaaaaaa"
        "0xaaaaaaaaaaaaaaaaaaaaaaaaaaaaaaaaaaaaaaaa"
        [("Uniswap V2", sampleQuoteLow), ("SushiSwap", sampleQuoteHigh)] 0).any
        (fun o => o.tokenIn == o.tokenOut) = true := by
  constructor
  · decide
  · rw [sampleDetect_eq]
    simp [sampleSynthesized]

/-- C4 amended witness: on a non-degenerate monitored pair and two
distinct sample venues the synthesized opportunity satisfies all three
invariants. -/
theorem c4_invariants_witness :
    (sampleSynthesized "0xaaaaaaaaaaaaaaaaaaaaaaaaaaaaaaaaaaaaaaaa"
        "0xbbbbbbbbbbbbbbbbbbbbbbbbbbbbbbbbbbbbbbbb").buyPrice
      < (sampleSynthesized "0xaaaaaaaaaaaaaaaaaaaaaaaaaaaaaaaaaaaaaaaa"
        "0xbbbbbbbbbbbbbbbbbbbbbbbbbbbbbbbbbbbbbbbb").sellPrice
    ∧ (sampleSynthesized "0xaaaaaaaaaaaaaaaaaaaaaaaaaaaaaaaaaaaaaaaa"
        "0xbbbbbbbbbbbbbbbbbbbbbbbbbbbbbbbbbbbbbbbb").buyDex
      ≠ (sampleSynthesized "0xaaaaaaaaaaaaaaaaaaaaaaaaaaaaaaaaaaaaaaaa"
        "0xbbbbbbbbbbbbbbbbbbbbbbbbbbbbbbbbbbbbbbbb").sellDex
    ∧ (sampleSynthesized "0xaaaaaaaaaaaaaaaaaaaaaaaaaaaaaaaaaaaaaaaa"
        "0xbbbbbbbbbbbbbbbbbbbbbbbbbbbbbbbbbbbbbbbb").tokenIn
      ≠ (sampleSynthesized "0xaaaaaaaaaaaaaaaaaaaaaaaaaaaaaaaaaaaaaaaa"
        "0xbbbbbbbbbbbbbbbbbbbbbbbbbbbbbbbbbbbbbbbb").tokenOut :=
  c4_invariants_amended "0xaaaaaaaaaaaaaaaaaaaaaaaaaaaaaaaaaaaaaaaa"
    "0xbbbbbbbbbbbbbbbbbbbbbbbbbbbbbbbbbbbbbbbb"
    [("Uniswap V2", sampleQuoteLow), ("SushiSwap", sampleQuoteHigh)] 0
    (by decide) (by decide)
    (sampleSynthesized "0xaaaaaaaaaaaaaaaaaaaaaaaaaaaaaaaaaaaaaaaa"
      "0xbbbbbbbbbbbbbbbbbbbbbbbbbbbbbbbbbbbbbbbb")
    (by rw [sampleDetect_eq]; exact List.mem_singleton.mpr rfl)

/-- C5 witness: the sample synthesis satisfies the guard and the exact
0.5 percent floor, and a venue pair quoting the same price in both
directions synthesizes nothing. -/
theorem c5_synthesis_threshold_witness :
    (0 < sampleQuoteLow.price
      ∧ sampleQuoteLow.price < sampleQuoteHigh.price
      ∧ (1 / 2 : ℚ) ≤ ((sampleQuoteHigh.price : ℚ) - (sampleQuoteLow.price : ℚ))
          / (sampleQuoteLow.price : ℚ) * 100)
    ∧ detectOpportunitiesForPair "0xaaaaaaaaaaaaaaaaaaaaaaaaaaaaaaaaaaaaaaaa"
        "0xbbbbbbbbbbbbbbbbbbbbbbbbbbbbbbbbbbbbbbbb"
        [("Uniswap V2", sampleQuoteLow), ("SushiSwap", sampleQuoteLow)] 0
      = [] :=
  ⟨c5_synthesis_threshold.1 _ _ _ _ _ _ 0 _ (createSample_eq "0xa" "0xb"),
    c5_synthesis_threshold.2 "0xaaaaaaaaaaaaaaaaaaaaaaaaaaaaaaaaaaaaaaaa"
      "0xbbbbbbbbbbbbbbbbbbbbbbbbbbbbbbbbbbbbbbbb" "Uniswap V2" "SushiSwap"
      sampleQuoteLow sampleQuoteLow 0 le_rfl le_rfl⟩

/-- C10 witness: the sample synthesized opportunity carries the hardcoded
10-ether liquidity and the raw price difference as its estimate. -/
theorem c10_liquidity_profit_placeholder_witness :
    (sampleSynthesized "0xaaaaaaaaaaaaaaaaaaaaaaaaaaaaaaaaaaaaaaaa"
        "0xbbbbbbbbbbbbbbbbbbbbbbbbbbbbbbbbbbbbbbbb").availableLiquidity
      = 10 * 10 ^ 18
    ∧ (sampleSynthesized "0xaaaaaaaaaaaaaaaaaaaaaaaaaaaaaaaaaaaaaaaa"
        "0xbbbbbbbbbbbbbbbbbbbbbbbbbbbbbbbbbbbbbbbb").estimatedProfit
      = some ((sampleSynthesized "0xaaaaaaaaaaaaaaaaaaaaaaaaaaaaaaaaaaaaaaaa"
          "0xbbbbbbbbbbbbbbbbbbbbbbbbbbbbbbbbbbbbbbbb").sellPrice
        - (sampleSynthesized "0xaaaaaaaaaaaaaaaaaaaaaaaaaaaaaaaaaaaaaaaa"
          "0xbbbbbbbbbbbbbbbbbbbbbbbbbbbbbbbbbbbbbbbb").buyPrice) :=
  c10_liquidity_profit_placeholder
    "0xaaaaaaaaaaaaaaaaaaaaaaaaaaaaaaaaaaaaaaaa"
    "0xbbbbbbbbbbbbbbbbbbbbbbbbbbbbbbbbbbbbbbbb" "Uniswap V2" "SushiSwap"
    sampleQuoteLow sampleQuoteHigh 0 _
    (createSample_eq "0xaaaaaaaaaaaaaaaaaaaaaaaaaaaaaaaaaaaaaaaa"
      "0xbbbbbbbbbbbbbbbbbbbbbbbbbbbbbbbbbbbbbbbb")

end AggregatorClaims
